import Mathlib

/-!
Shallow embedding of the zeitstempel crate: a typed monotonic-timestamp
abstraction (src/lib.rs) over per-platform clock providers
(src/windows.rs, src/unsupported.rs, src/mac.rs, src/win.rs).

Machine integers (u64) are modelled as Nat with an explicit bound 2 ^ 64;
wrapping multiplication is modelled with an explicit mod; a Rust panic is
modelled as the error branch of Except.
-/

namespace Zeitstempel

/-- Number of distinct values of a Rust u64, i.e. 2 ^ 64. -/
def U64_SIZE : Nat := 18446744073709551616

/-- Rust u64 checked subtraction: some of the difference when no underflow
would occur, none otherwise. -/
def checkedSub (a b : Nat) : Option Nat :=
  if b ≤ a then some (a - b) else none

/-- Nanoseconds per second, the split used by std Duration. -/
def NANOS_PER_SEC : Nat := 1000000000

/-- std Duration: whole seconds plus a sub-second nanosecond remainder. -/
structure Duration where
  secs : Nat
  subsecNanos : Nat
deriving DecidableEq

/-- std Duration.from_nanos: splits a nanosecond count into seconds and
sub-second nanoseconds. -/
def Duration.from_nanos (n : Nat) : Duration :=
  { secs := n / NANOS_PER_SEC, subsecNanos := n % NANOS_PER_SEC }

/-- Total nanosecond count represented by a Duration. -/
def Duration.asNanos (d : Duration) : Nat :=
  d.secs * NANOS_PER_SEC + d.subsecNanos

/-- The two zero-sized clock-variant marker types of src/lib.rs:
IncludingSuspend and ExcludingSuspend. -/
inductive Variant
  | includingSuspend
  | excludingSuspend
deriving DecidableEq

/-- Derived Ord on a zero-sized marker struct: the comparison of two values
of a fieldless unit struct is always Ordering.eq. -/
def markerCmp : Ordering := Ordering.eq

/-- Derived PartialEq on a zero-sized marker struct: always true. -/
def markerBeq : Bool := true

/-- The struct Instant of src/lib.rs, a u64 tick count tagged (at the type
level) with the clock variant that produced it. The marker field is a
phantom index here, matching the Rust generic parameter. -/
structure Instant (v : Variant) where
  ticks : Nat
deriving DecidableEq

/-- Instant.checked_duration_since from src/lib.rs:
self.0.checked_sub(earlier.0).map(Duration.from_nanos). -/
def Instant.checked_duration_since {v : Variant} (a : Instant v)
    (earlier : Instant v) : Option Duration :=
  (checkedSub a.ticks earlier.ticks).map Duration.from_nanos

/-- Option.expect: the wrapped value, or a panic carrying the message,
modelled as the error branch of Except. -/
def expect {α : Type} (o : Option α) (msg : String) : Except String α :=
  match o with
  | some x => Except.ok x
  | none => Except.error msg

/-- Instant.duration_since from src/lib.rs:
checked_duration_since(..).expect("supplied instant is later than self"). -/
def Instant.duration_since {v : Variant} (a : Instant v)
    (earlier : Instant v) : Except String Duration :=
  expect (a.checked_duration_since earlier) "supplied instant is later than self"

/-- Instant.as_timestamp from src/lib.rs: the underlying u64 tick count. -/
def Instant.as_timestamp {v : Variant} (a : Instant v) : Nat :=
  a.ticks

/-- The Sub impl of src/lib.rs for Instant, defined as
self.duration_since(other). Like the Rust impl it exists only at a single
variant: both operands share the index v. -/
def Instant.sub {v : Variant} (a other : Instant v) : Except String Duration :=
  a.duration_since other

/-- The set of (left, right) variant instantiations at which src/lib.rs
provides a Sub impl for Instant. The only impl is generic in one parameter
T, with head Sub of Instant T for Instant T, so the pair (v, w) is covered
exactly when unifying (Instant v, Instant w) against (Instant T, Instant T)
succeeds, i.e. when v equals w. -/
def subDefinedAt (v w : Variant) : Bool := v == w

/-- Derived Ord comparison on Instant: field-wise lexicographic, u64 tick
count first, then the zero-sized marker. -/
def Instant.cmp {v : Variant} (a b : Instant v) : Ordering :=
  (compare a.ticks b.ticks).then markerCmp

/-- Derived PartialEq on Instant: field-wise, u64 tick count and marker. -/
def Instant.beq {v : Variant} (a b : Instant v) : Bool :=
  (a.ticks == b.ticks) && markerBeq

namespace Windows

/-- SYSTEM_TIME_UNIT from src/windows.rs: Windows counts interrupt time in
units of 100 nanoseconds. -/
def SYSTEM_TIME_UNIT : Nat := 100

/-- now_including_suspend from src/windows.rs: QueryInterruptTime writes the
counter value c into the out parameter and the function returns
c * SYSTEM_TIME_UNIT as a u64, wrapping modulo 2 ^ 64 on overflow. -/
def now_including_suspend (c : Nat) : Nat :=
  (c * SYSTEM_TIME_UNIT) % U64_SIZE

/-- now_excluding_suspend from src/windows.rs: QueryUnbiasedInterruptTime
writes the counter value c and the function returns c * SYSTEM_TIME_UNIT as
a u64, wrapping modulo 2 ^ 64 on overflow. -/
def now_excluding_suspend (c : Nat) : Nat :=
  (c * SYSTEM_TIME_UNIT) % U64_SIZE

end Windows

namespace Unsupported

/-- State of the fallback provider of src/unsupported.rs: the lazily
captured INIT_TIME cell (a std Instant, modelled as a nanosecond reading of
the std monotonic clock) together with the current reading of that clock. -/
structure State where
  initTime : Option Nat
  nowNanos : Nat
deriving DecidableEq

/-- Dereferencing the Lazy cell INIT_TIME (Lazy.new(Instant.now)): on first
use the current clock reading is captured into the cell; afterwards the
captured value is returned unchanged. Returns the reference value and the
updated cell. -/
def lazyInitTime (s : State) : Nat × Option Nat :=
  match s.initTime with
  | some t => (t, some t)
  | none => (s.nowNanos, some s.nowNanos)

/-- std Duration.as_millis applied to an elapsed span given in nanoseconds:
the whole number of milliseconds, as a u128 (which cannot overflow here). -/
def asMillis (nanos : Nat) : Nat := nanos / 1000000

/-- u128 to u64 try_into followed by unwrap_or(0): the value when it fits in
a u64, otherwise 0. -/
def tryIntoU64OrZero (n : Nat) : Nat :=
  if n < U64_SIZE then n else 0

/-- now_including_suspend_ms from src/unsupported.rs:
INIT_TIME.elapsed().as_millis().try_into().unwrap_or(0). Returns the u64
result together with the updated provider state. -/
def now_including_suspend_ms (s : State) : Nat × State :=
  let p := lazyInitTime s
  let d := s.nowNanos - p.1
  (tryIntoU64OrZero (asMillis d), { s with initTime := p.2 })

/-- now_excluding_suspend_ms from src/unsupported.rs: the body is identical
to now_including_suspend_ms. -/
def now_excluding_suspend_ms (s : State) : Nat × State :=
  let p := lazyInitTime s
  let d := s.nowNanos - p.1
  (tryIntoU64OrZero (asMillis d), { s with initTime := p.2 })

/-- Names of the public functions defined by src/unsupported.rs. -/
def unsupportedModFns : List String :=
  ["now_including_suspend_ms", "now_excluding_suspend_ms"]

/-- Names of the provider functions that src/lib.rs calls through the sys
module alias (sys resolves to the unsupported module on a target without a
dedicated provider). -/
def sysFnsRequired : List String :=
  ["now_including_suspend", "now_excluding_suspend"]

/-- Nanoseconds in one millisecond: the unit of the tick values produced by
the fallback provider, whose functions return as_millis counts. -/
def fallbackTickNanos : Nat := 1000000

/-- True elapsed nanoseconds corresponding to a tick difference measured in
fallback (millisecond) ticks. -/
def trueElapsedNanosOfMsTicks (ms : Nat) : Nat := ms * fallbackTickNanos

end Unsupported

/-! Helper lemmas shared by several results. -/

/-- Splitting a nanosecond count into seconds and a remainder and summing it
back is the identity. -/
theorem Duration.asNanos_from_nanos (n : Nat) :
    (Duration.from_nanos n).asNanos = n := by
  simp only [Duration.from_nanos, Duration.asNanos, NANOS_PER_SEC]
  omega

/-- The lexicographic comparison of two instants collapses to the comparison
of their tick counts, because the marker comparison is constantly eq. -/
theorem Instant.cmp_eq_compare_ticks {v : Variant} (a b : Instant v) :
    a.cmp b = compare a.ticks b.ticks := by
  unfold Instant.cmp markerCmp
  cases compare a.ticks b.ticks <;> rfl

/-- C1: for two instants of the same variant, checked_duration_since returns
some duration of exactly self.ticks - earlier.ticks nanoseconds when
self.ticks is at least earlier.ticks, and none when earlier.ticks exceeds
self.ticks; the checked u64 subtraction never wraps for any pair of u64
tick values. -/
theorem checked_duration_since_exact {v : Variant} (a b : Instant v)
    (ha : a.ticks < U64_SIZE) (hb : b.ticks < U64_SIZE) :
    (b.ticks ≤ a.ticks →
      a.checked_duration_since b = some (Duration.from_nanos (a.ticks - b.ticks)) ∧
      (Duration.from_nanos (a.ticks - b.ticks)).asNanos = a.ticks - b.ticks) ∧
    (a.ticks < b.ticks → a.checked_duration_since b = none) := by
  constructor
  · intro h
    exact ⟨by simp [Instant.checked_duration_since, checkedSub, h],
      Duration.asNanos_from_nanos (a.ticks - b.ticks)⟩
  · intro h
    have hn : ¬ b.ticks ≤ a.ticks := by omega
    simp [Instant.checked_duration_since, checkedSub, hn]

/-- Witness for C1 at concrete instants with ticks 7 and 3. -/
theorem checked_duration_since_exact_witness :
    (@Instant.checked_duration_since Variant.includingSuspend ⟨7⟩ ⟨3⟩ =
      some (Duration.from_nanos 4)) ∧
    (@Instant.checked_duration_since Variant.includingSuspend ⟨3⟩ ⟨7⟩ = none) := by
  have h1 := @checked_duration_since_exact Variant.includingSuspend ⟨7⟩ ⟨3⟩
    (by decide) (by decide)
  have h2 := @checked_duration_since_exact Variant.includingSuspend ⟨3⟩ ⟨7⟩
    (by decide) (by decide)
  exact ⟨(h1.1 (by decide)).1, h2.2 (by decide)⟩

/-- C2: duration_since panics exactly when earlier.ticks exceeds self.ticks,
otherwise it returns the same duration checked_duration_since returns, and
the subtraction operator is duration_since, hence panics under the same
condition. -/
theorem duration_since_panic_iff {v : Variant} (a b : Instant v) :
    ((∃ msg, a.duration_since b = Except.error msg) ↔ a.ticks < b.ticks) ∧
    (b.ticks ≤ a.ticks →
      a.duration_since b = Except.ok (Duration.from_nanos (a.ticks - b.ticks)) ∧
      a.checked_duration_since b = some (Duration.from_nanos (a.ticks - b.ticks))) ∧
    a.sub b = a.duration_since b := by
  refine ⟨?_, ?_, rfl⟩
  · by_cases h : b.ticks ≤ a.ticks
    · simp [Instant.duration_since, expect, Instant.checked_duration_since,
        checkedSub, h]
    · simp [Instant.duration_since, expect, Instant.checked_duration_since,
        checkedSub, h]
      omega
  · intro h
    constructor <;>
      simp [Instant.duration_since, expect, Instant.checked_duration_since,
        checkedSub, h]

/-- Witness for C2 at concrete instants with ticks 7 and 3. -/
theorem duration_since_panic_iff_witness :
    (3 : Nat) ≤ 7 ∧
    @Instant.duration_since Variant.excludingSuspend ⟨7⟩ ⟨3⟩ =
      Except.ok (Duration.from_nanos 4) := by
  exact ⟨by decide,
    ((@duration_since_panic_iff Variant.excludingSuspend ⟨7⟩ ⟨3⟩).2.1 (by decide)).1⟩

/-- C4: the single generic Sub impl of src/lib.rs covers exactly the
variant-diagonal instantiations, so subtraction (and likewise comparison,
which shares the single-parameter generic shape) is available only between
instants of the same variant, and the two variants are distinct types. -/
theorem sub_same_variant_only :
    (∀ v w : Variant, subDefinedAt v w = true ↔ v = w) ∧
    subDefinedAt Variant.includingSuspend Variant.excludingSuspend = false ∧
    Variant.includingSuspend ≠ Variant.excludingSuspend := by
  refine ⟨?_, by decide, by decide⟩
  intro v w
  cases v <;> cases w <;> simp [subDefinedAt]

/-- Witness for C4: the diagonal instantiation at IncludingSuspend is
covered by the Sub impl. -/
theorem sub_same_variant_only_witness :
    subDefinedAt Variant.includingSuspend Variant.includingSuspend = true := by
  exact (sub_same_variant_only.1 Variant.includingSuspend Variant.includingSuspend).mpr rfl

/-- C5 counterexample: at the u64 counter value 2 ^ 62 (a value the OS query
can write), the Windows provider does not return the counter multiplied by
exactly 100: the u64 product wraps modulo 2 ^ 64. -/
theorem windows_mul_wraps_counterexample :
    Windows.now_including_suspend 4611686018427387904 ≠
      4611686018427387904 * 100 ∧
    (4611686018427387904 : Nat) < U64_SIZE := by
  constructor
  · decide
  · decide

/-- C5 amended: on Windows both provider functions return the raw counter
value times 100 reduced modulo 2 ^ 64, which equals exactly 100 times the
counter if and only if that product fits in a u64. -/
theorem windows_mul_exact_iff (c : Nat) (hc : c < U64_SIZE) :
    Windows.now_including_suspend c = (c * 100) % U64_SIZE ∧
    Windows.now_excluding_suspend c = (c * 100) % U64_SIZE ∧
    (Windows.now_including_suspend c = c * 100 ↔ c * 100 < U64_SIZE) ∧
    (Windows.now_excluding_suspend c = c * 100 ↔ c * 100 < U64_SIZE) := by
  have hpos : 0 < U64_SIZE := by decide
  have hmod : ∀ x : Nat, x % U64_SIZE = x ↔ x < U64_SIZE := by
    intro x
    constructor
    · intro h
      have hlt : x % U64_SIZE < U64_SIZE := Nat.mod_lt _ hpos
      omega
    · intro h
      exact Nat.mod_eq_of_lt h
  refine ⟨rfl, rfl, ?_, ?_⟩ <;>
    simpa [Windows.now_including_suspend, Windows.now_excluding_suspend,
      Windows.SYSTEM_TIME_UNIT] using hmod (c * 100)

/-- Witness for C5 amended at counter value 5. -/
theorem windows_mul_exact_iff_witness :
    (5 : Nat) < U64_SIZE ∧ Windows.now_including_suspend 5 = 500 := by
  refine ⟨by decide, ?_⟩
  have h := windows_mul_exact_iff 5 (by decide)
  exact h.2.2.1.mpr (by decide)

/-- C6: the two fallback functions are equal as functions of the provider
state; the reference instant is captured into the cell on the first call
and preserved unchanged on every later call, and after initialization the
returned value is the elapsed whole milliseconds since the captured
reference. -/
theorem unsupported_fns_equal :
    (∀ s : Unsupported.State,
      Unsupported.now_including_suspend_ms s = Unsupported.now_excluding_suspend_ms s) ∧
    (∀ s : Unsupported.State, ∀ t, s.initTime = some t →
      (Unsupported.now_including_suspend_ms s).2.initTime = some t ∧
      (Unsupported.now_including_suspend_ms s).1 =
        Unsupported.tryIntoU64OrZero (Unsupported.asMillis (s.nowNanos - t))) ∧
    (∀ s : Unsupported.State, s.initTime = none →
      (Unsupported.now_including_suspend_ms s).2.initTime = some s.nowNanos) := by
  refine ⟨fun s => rfl, ?_, ?_⟩
  · intro s t h
    constructor <;>
      simp [Unsupported.now_including_suspend_ms, Unsupported.lazyInitTime, h]
  · intro s h
    simp [Unsupported.now_including_suspend_ms, Unsupported.lazyInitTime, h]

/-- Witness for C6 at a state whose cell holds 5 and whose clock reads
12000005 nanoseconds. -/
theorem unsupported_fns_equal_witness :
    (Unsupported.State.mk (some 5) 12000005).initTime = some 5 ∧
    (Unsupported.now_including_suspend_ms ⟨some 5, 12000005⟩).1 = 12 := by
  refine ⟨rfl, ?_⟩
  have h := unsupported_fns_equal.2.1 ⟨some 5, 12000005⟩ 5 rfl
  exact h.2.trans (by decide)

/-- C7: src/lib.rs calls sys.now_including_suspend and
sys.now_excluding_suspend, but src/unsupported.rs defines only
now_including_suspend_ms and now_excluding_suspend_ms, so on an unsupported
target the factory calls do not resolve to any fallback function. -/
theorem unsupported_names_mismatch :
    Unsupported.sysFnsRequired.all
      (fun n => Unsupported.unsupportedModFns.contains n) = false ∧
    "now_including_suspend" ∉ Unsupported.unsupportedModFns ∧
    "now_excluding_suspend" ∉ Unsupported.unsupportedModFns := by
  refine ⟨by decide, by decide, by decide⟩

/-- C8: the derived ordering and equality on Instant are determined purely
by the tick values: the lexicographic comparison collapses to the numeric
comparison of the timestamps extracted by as_timestamp, and derived
equality is equality of those timestamps. -/
theorem order_determined_by_timestamp {v : Variant} (a b : Instant v) :
    (a.cmp b ≠ Ordering.gt ↔ a.as_timestamp ≤ b.as_timestamp) ∧
    (a.cmp b = Ordering.lt ↔ a.as_timestamp < b.as_timestamp) ∧
    (a.cmp b = Ordering.eq ↔ a.as_timestamp = b.as_timestamp) ∧
    (a.beq b = true ↔ a.as_timestamp = b.as_timestamp) := by
  rw [Instant.cmp_eq_compare_ticks]
  refine ⟨?_, ?_, ?_, ?_⟩
  · rw [ne_eq, Nat.compare_eq_gt, Instant.as_timestamp, Instant.as_timestamp]
    omega
  · rw [Nat.compare_eq_lt, Instant.as_timestamp, Instant.as_timestamp]
  · rw [Nat.compare_eq_eq, Instant.as_timestamp, Instant.as_timestamp]
  · simp [Instant.beq, markerBeq, Instant.as_timestamp]

/-- Witness for C8 at concrete instants with ticks 3 and 7. -/
theorem order_determined_by_timestamp_witness :
    @Instant.cmp Variant.excludingSuspend ⟨3⟩ ⟨7⟩ = Ordering.lt := by
  exact (@order_determined_by_timestamp Variant.excludingSuspend ⟨3⟩ ⟨7⟩).2.1.mpr
    (by decide)

/-- C9: checked_duration_since always interprets the tick difference as a
nanosecond count, so for fallback-produced instants, whose ticks count
milliseconds, the reported duration is a factor of one million smaller than
the true elapsed time instead of being unit-converted. -/
theorem fallback_duration_unit_mismatch {v : Variant} (a b : Instant v)
    (h : b.ticks ≤ a.ticks) :
    (a.checked_duration_since b).map Duration.asNanos = some (a.ticks - b.ticks) ∧
    (∀ reported,
      (a.checked_duration_since b).map Duration.asNanos = some reported →
      reported * Unsupported.fallbackTickNanos =
        Unsupported.trueElapsedNanosOfMsTicks (a.ticks - b.ticks)) := by
  have h1 : (a.checked_duration_since b).map Duration.asNanos =
      some (a.ticks - b.ticks) := by
    simp [Instant.checked_duration_since, checkedSub, h, Duration.asNanos_from_nanos]
  refine ⟨h1, ?_⟩
  intro reported hr
  rw [h1] at hr
  cases hr
  rfl

/-- Witness for C9 at concrete instants with ticks 10 and 3. -/
theorem fallback_duration_unit_mismatch_witness :
    (3 : Nat) ≤ 10 ∧
    (@Instant.checked_duration_since Variant.includingSuspend ⟨10⟩ ⟨3⟩).map
      Duration.asNanos = some 7 := by
  exact ⟨by decide,
    (@fallback_duration_unit_mismatch Variant.includingSuspend ⟨10⟩ ⟨3⟩ (by decide)).1⟩

/-- C10: once the reference is captured, both fallback functions return 0
whenever the elapsed whole-millisecond count does not fit in a u64, and the
exact whole-millisecond count whenever it does. -/
theorem fallback_overflow_to_zero (s : Unsupported.State) (t : Nat)
    (h : s.initTime = some t) :
    (U64_SIZE ≤ Unsupported.asMillis (s.nowNanos - t) →
      (Unsupported.now_including_suspend_ms s).1 = 0 ∧
      (Unsupported.now_excluding_suspend_ms s).1 = 0) ∧
    (Unsupported.asMillis (s.nowNanos - t) < U64_SIZE →
      (Unsupported.now_including_suspend_ms s).1 =
        Unsupported.asMillis (s.nowNanos - t) ∧
      (Unsupported.now_excluding_suspend_ms s).1 =
        Unsupported.asMillis (s.nowNanos - t)) := by
  constructor
  · intro hge
    have hnot : ¬ Unsupported.asMillis (s.nowNanos - t) < U64_SIZE := by omega
    constructor <;>
      simp [Unsupported.now_including_suspend_ms, Unsupported.now_excluding_suspend_ms,
        Unsupported.lazyInitTime, Unsupported.tryIntoU64OrZero, h, hnot]
  · intro hlt
    constructor <;>
      simp [Unsupported.now_including_suspend_ms, Unsupported.now_excluding_suspend_ms,
        Unsupported.lazyInitTime, Unsupported.tryIntoU64OrZero, h, hlt]

/-- Witness for C10 at a state whose elapsed milliseconds equal 2 ^ 64. -/
theorem fallback_overflow_to_zero_witness :
    (Unsupported.now_including_suspend_ms
      ⟨some 0, 18446744073709551616000000⟩).1 = 0 := by
  have h := fallback_overflow_to_zero ⟨some 0, 18446744073709551616000000⟩ 0 rfl
  exact (h.1 (by decide)).1

end Zeitstempel
